import Mathlib

/-!
Verification of the RPC task core in `core/dbt/task/remote.py`.

The Python module is shallowly embedded below.  External collaborators
(SQL-template lexer, macro/statement parsers, base64 decoding, the
adapter) are passed in as function parameters; everything that the
module itself computes is translated directly from the source.
-/

namespace DbtRemote

/-- A top-level block produced by `extract_toplevel_blocks` (external
lexer from `dbt.clients.jinja`): its `block_type_name` and the raw
`full_block` text. -/
structure Block where
  block_type_name : String
  full_block : String
deriving DecidableEq, Repr

/-- The loop body of `_RPCExecTask._extract_request_data`: iterate the
top-level blocks, appending reusable-definition blocks to one
accumulator and every other block to the other, preserving source
order. -/
def split_blocks : List Block → List String → List String → List String × List String
  | [], macro_blocks, data_chunks => (macro_blocks, data_chunks)
  | b :: rest, macro_blocks, data_chunks =>
    if b.block_type_name == "macro" then
      split_blocks rest (macro_blocks ++ [b.full_block]) data_chunks
    else
      split_blocks rest macro_blocks (data_chunks ++ [b.full_block])

/-- `_RPCExecTask._extract_request_data`: decode the wire text, split it
into top-level blocks, then return the statement text (non-macro blocks
concatenated with no separator) and the macros text (macro blocks joined
with newlines).  `decode_sql` and `extract_toplevel_blocks` are external
collaborators. -/
def extract_request_data (decode_sql : String → String)
    (extract_toplevel_blocks : String → List Block) (data : String) : String × String :=
  let d := decode_sql data
  let (macro_blocks, data_chunks) := split_blocks (extract_toplevel_blocks d) [] []
  (String.join data_chunks, String.intercalate "\n" macro_blocks)

theorem split_blocks_spec (bs : List Block) (ms ds : List String) :
    split_blocks bs ms ds =
      (ms ++ (bs.filter (fun b => b.block_type_name == "macro")).map (fun b => b.full_block),
       ds ++ (bs.filter (fun b => ! (b.block_type_name == "macro"))).map (fun b => b.full_block)) := by
  induction bs generalizing ms ds with
  | nil => simp [split_blocks]
  | cons b rest ih =>
    by_cases h : b.block_type_name = "macro" <;>
      simp [split_blocks, h, ih, List.append_assoc]

/-- C5: the splitter partitions the top-level blocks of the decoded text:
the macros text is the newline-join of the macro blocks in source order,
the statement text is the separator-free concatenation of the other
blocks in source order, and with no macro blocks the macros text is
empty. -/
theorem C5_fragment_splitter (decode_sql : String → String)
    (extract_toplevel_blocks : String → List Block) (data : String) :
    extract_request_data decode_sql extract_toplevel_blocks data =
      (String.join (((extract_toplevel_blocks (decode_sql data)).filter
          (fun b => ! (b.block_type_name == "macro"))).map (fun b => b.full_block)),
       String.intercalate "\n" (((extract_toplevel_blocks (decode_sql data)).filter
          (fun b => b.block_type_name == "macro")).map (fun b => b.full_block)))
    ∧ ((extract_toplevel_blocks (decode_sql data)).filter
          (fun b => b.block_type_name == "macro") = [] →
        (extract_request_data decode_sql extract_toplevel_blocks data).2 = "") := by
  constructor
  · simp [extract_request_data, split_blocks_spec]
  · intro h
    simp [extract_request_data, split_blocks_spec, h]
    rfl

/-- Concrete lexer yielding two statement blocks and no macro block. -/
def blocks_demo : String → List Block :=
  fun _ => [⟨"statement", "select 1"⟩, ⟨"statement", " union select 2"⟩]

theorem C5_fragment_splitter_witness :
    (extract_request_data id blocks_demo "x").2 = "" :=
  (C5_fragment_splitter id blocks_demo "x").2 (by decide)

/-! The manifest's macro collection and `_get_exec_node` -/

/-- The contents of a manifest's macro dict: unique identifier ↦ macro
definition, in insertion order (as a Python dict). -/
abbrev MacroDict := List (String × String)

/-- One key update of a Python dict: an existing key is overwritten in
place, a new key is appended. -/
def dict_set (d : MacroDict) (k v : String) : MacroDict :=
  if d.any (fun p => p.1 == k) then
    d.map (fun p => if p.1 == k then (k, v) else p)
  else
    d ++ [(k, v)]

/-- Python `dict.update`: apply every key of the overrides, in order,
to the receiver; duplicate keys overwrite (last write wins). -/
def dict_update (d : MacroDict) : MacroDict → MacroDict
  | [] => d
  | kv :: rest => dict_update (dict_set d kv.1 kv.2) rest

/-- The loop in `_get_exec_node` building `macro_overrides`:
`for node in macro_parser.parse_remote(macros): macro_overrides[node.unique_id] = node`. -/
def build_macro_overrides (parsed : List (String × String)) : MacroDict :=
  parsed.foldl (fun acc kv => dict_set acc kv.1 kv.2) []

/-- The external collaborators `_get_exec_node` calls: `decode_sql`
(from the RPC base task), `extract_toplevel_blocks` (jinja lexer),
`RPCMacroParser.parse_remote` (macro text ↦ parsed macros keyed by
unique id), and `RPCCallParser.parse_remote` (statement text and name ↦
one ad-hoc node, here identified by a string). -/
structure Externals where
  decode_sql : String → String
  extract_toplevel_blocks : String → List Block
  parse_remote_overrides : String → List (String × String)
  parse_remote_call : String → String → String

/-- The arguments object of an ad-hoc task, as populated by
`_RPCExecTask.set_args`. -/
structure ExecArgs where
  name : String
  sql : String
  macros : Option String
deriving DecidableEq, Repr

/-- The caller-supplied parameters of a `compile_sql` / `run_sql`
request (`RPCExecParameters`). -/
structure RPCExecParameters where
  name : String
  sql : String
  macros : Option String
deriving DecidableEq, Repr

/-- `_RPCExecTask.set_args`: copy the request parameters into the
task's args. -/
def set_args (params : RPCExecParameters) : ExecArgs :=
  ⟨params.name, params.sql, params.macros⟩

/-- What `_get_exec_node` produces and mutates: the ad-hoc node, the
contents of the shared baseline manifest's macro dict *after* the call
(the source runs `self._base_manifest.macros.update(macro_overrides)`
on the shared object), and the request's `macro_overrides`. -/
structure ExecNodeOut where
  node : String
  base_macros_after : MacroDict
  overrides : MacroDict
deriving DecidableEq, Repr

/-- `_RPCExecTask._get_exec_node`, restricted to the data flow visible
in the source: read `self.args.macros` (immediately shadowed), split the
request sql, parse the macros text when non-empty, update the baseline
manifest's macro dict in place, and parse the ad-hoc node. -/
def get_exec_node (ext : Externals) (base_macros : MacroDict) (args : ExecArgs) : ExecNodeOut :=
  let macros := args.macros
  let (sql, macros) := extract_request_data ext.decode_sql ext.extract_toplevel_blocks args.sql
  let macro_overrides := if macros ≠ "" then build_macro_overrides (ext.parse_remote_overrides macros) else []
  let base_after := dict_update base_macros macro_overrides
  let node := ext.parse_remote_call sql args.name
  ⟨node, base_after, macro_overrides⟩

/-- Concrete externals for a request whose sql carries exactly one macro
block defining the macro `m`. -/
def ext_macro_demo : Externals :=
  ⟨id, fun _ => [⟨"macro", "definition of m"⟩], fun _ => [("macro.rpc.m", "m")],
   fun _ n => n⟩

/-- C1 (code bug): with an empty baseline macro dict and a request whose
sql contains one macro block, `_get_exec_node` leaves the macro in the
shared baseline manifest's macro dict — the baseline macro collection is
mutated in place, not copied. -/
theorem C1_baseline_macros_mutated :
    (get_exec_node ext_macro_demo [] ⟨"q1", "select 1", none⟩).base_macros_after
        = [("macro.rpc.m", "m")]
    ∧ [("macro.rpc.m", "m")] ≠ ([] : MacroDict) := by
  decide

/-- C10: the outcome of `_get_exec_node` is independent of the
caller-supplied macros parameter: two parameter records agreeing on
`name` and `sql` produce identical results, whatever the `macros` field
holds. -/
theorem C10_macros_param_ignored (ext : Externals) (base_macros : MacroDict)
    (p1 p2 : RPCExecParameters) (hn : p1.name = p2.name) (hs : p1.sql = p2.sql) :
    get_exec_node ext base_macros (set_args p1) = get_exec_node ext base_macros (set_args p2) := by
  simp only [get_exec_node, set_args, hn, hs]

theorem C10_macros_param_ignored_witness :
    get_exec_node ext_macro_demo [] (set_args ⟨"q1", "select 1", none⟩)
      = get_exec_node ext_macro_demo [] (set_args ⟨"q1", "select 1", some "other macros"⟩) :=
  C10_macros_param_ignored ext_macro_demo [] _ _ rfl rfl

/-! The cancellable executor: `handle_request`, `_in_thread`,
`_raise_set_error`, `runtime_cleanup` -/

/-- The handler's execution bookkeeping (`runtime_cleanup` resets these
fields; the worker writes them). -/
structure RunState where
  run_count : Nat
  num_nodes : Nat
  node_results : List String
  skipped_children : List (String × String)
  raise_next_tick : Option String
deriving DecidableEq, Repr

/-- `_RPCExecTask.runtime_cleanup`. -/
def runtime_cleanup (selected_uids : List String) : RunState :=
  ⟨0, selected_uids.length, [], [], none⟩

/-- `_RPCExecTask._in_thread` acting on the handler state: append the
runner's result on success, store the exception in the pending slot on
failure.  `safe_run` is the external runner call, returning a result or
an exception. -/
def in_thread (safe_run : Except String String) (st : RunState) : RunState :=
  match safe_run with
  | .ok r => { st with node_results := st.node_results ++ [r] }
  | .error e => { st with raise_next_tick := some e }

/-- `_RPCExecTask._raise_set_error`: re-raise the pending exception if
one is set. -/
def raise_set_error (st : RunState) : Except String Unit :=
  match st.raise_next_tick with
  | some e => .error e
  | none => .ok ()

/-- The failures `handle_request` can raise to the RPC layer:
`InternalException`, `RPCKilledException` (with the interrupt signal's
number), a user-facing validation/parse error, and a worker execution
error re-raised on the coordinating thread. -/
inductive RPCErr where
  | internal (msg : String)
  | killed (sig : Nat)
  | validation (msg : String)
  | exec (msg : String)
deriving DecidableEq, Repr

/-- `signal.SIGINT`. -/
def SIGINT : Nat := 2

/-- When, relative to the try block of `handle_request`, a
`KeyboardInterrupt` is delivered to the coordinating thread: never,
while `_get_exec_node` is still parsing (no worker exists yet), or while
the coordinating thread waits on the completion event. -/
inductive InterruptWhen where
  | no
  | duringParse
  | duringWait
deriving DecidableEq, Repr

deriving instance DecidableEq for Except

/-- The environment one request runs against: the outcome of building
the ephemeral context (`_get_exec_node`), when an interrupt arrives,
whether `adapter.is_cancelable()`, and the outcome of the worker's
single `runner.safe_run` call. -/
structure ExecEnv where
  parse : Except String String
  interrupt : InterruptWhen
  cancelable : Bool
  safe_run : Except String String
deriving DecidableEq, Repr

/-- The observable events of one `handle_request` run, in order. -/
inductive Event where
  | spawnWorker
  | appendResult (r : String)
  | storeExc (e : String)
  | signalDone
  | cancelConnections
  | joinWorker
  | logUnsupported
  | returnResponse
deriving DecidableEq, Repr

/-- The worker body's event trace (`_in_thread`): try to run and append,
on exception store it, and in all cases finally set the completion
event. -/
def worker_events (safe_run : Except String String) : List Event :=
  match safe_run with
  | .ok r => [.appendResult r, .signalDone]
  | .error e => [.storeExc e, .signalDone]

/-- The response envelope, restricted to the handler results (the
wall-clock timestamps are outside the model). -/
structure Response where
  results : List String
deriving DecidableEq, Repr

/-- `_RPCExecTask.handle_request` as a trace semantics: the events the
coordinating thread observes (in order), and the returned envelope or
the raised failure.  The `KeyboardInterrupt` handler consults
`adapter.is_cancelable()`; on the cancel path it cancels open
connections and joins the worker (`if thread: thread.join()` — during
parsing `thread` is still `None`); otherwise it only logs, leaving the
worker detached; either way it raises `RPCKilledException(SIGINT)`. -/
def handle_request (env : ExecEnv) : List Event × Except RPCErr Response :=
  match env.interrupt with
  | .duringParse =>
    ((if env.cancelable then [Event.cancelConnections] else [Event.logUnsupported]),
     .error (.killed SIGINT))
  | .duringWait =>
    match env.parse with
    | .error e => ([], .error (.validation e))
    | .ok _ =>
      if env.cancelable then
        ([Event.spawnWorker, Event.cancelConnections] ++ worker_events env.safe_run
           ++ [Event.joinWorker],
         .error (.killed SIGINT))
      else
        ([Event.spawnWorker, Event.logUnsupported], .error (.killed SIGINT))
  | .no =>
    match env.parse with
    | .error e => ([], .error (.validation e))
    | .ok node =>
      let st0 := runtime_cleanup [node]
      let st1 := in_thread env.safe_run st0
      let evs := Event.spawnWorker :: worker_events env.safe_run
      match raise_set_error st1 with
      | .error e => (evs, .error (.exec e))
      | .ok _ => (evs ++ [Event.returnResponse], .ok ⟨st1.node_results⟩)

/-- `occurs_before e1 e2 tr` holds when some occurrence of `e1` in `tr`
is followed (strictly later) by an occurrence of `e2`. -/
def occurs_before (e1 e2 : Event) : List Event → Bool
  | [] => false
  | x :: rest => (x == e1 && rest.contains e2) || occurs_before e1 e2 rest

/-- C2: interrupt while the worker runs, cancelable adapter: the open
connections are cancelled, the worker is joined after its completion
signal (i.e. after it exits), and the request fails with
`RPCKilledException(SIGINT)` whatever the worker's own outcome was. -/
theorem C2_interrupt_cancelable (env : ExecEnv) (node : String)
    (hp : env.parse = .ok node) (hi : env.interrupt = .duringWait)
    (hc : env.cancelable = true) :
    (handle_request env).2 = .error (.killed SIGINT)
    ∧ Event.cancelConnections ∈ (handle_request env).1
    ∧ Event.joinWorker ∈ (handle_request env).1
    ∧ occurs_before Event.signalDone Event.joinWorker (handle_request env).1 = true := by
  cases hw : env.safe_run with
  | ok r => simp [handle_request, hp, hi, hc, hw, worker_events, occurs_before, List.contains]
  | error e => simp [handle_request, hp, hi, hc, hw, worker_events, occurs_before, List.contains]

theorem C2_interrupt_cancelable_witness :
    (handle_request ⟨.ok "q1", .duringWait, true, .ok "r"⟩).2 = .error (.killed SIGINT)
    ∧ Event.cancelConnections ∈ (handle_request ⟨.ok "q1", .duringWait, true, .ok "r"⟩).1
    ∧ Event.joinWorker ∈ (handle_request ⟨.ok "q1", .duringWait, true, .ok "r"⟩).1
    ∧ occurs_before Event.signalDone Event.joinWorker
        (handle_request ⟨.ok "q1", .duringWait, true, .ok "r"⟩).1 = true :=
  C2_interrupt_cancelable ⟨.ok "q1", .duringWait, true, .ok "r"⟩ "q1" rfl rfl rfl

/-- C3: interrupt while the worker runs, non-cancelable adapter: the
coordinating thread neither joins the worker nor waits for its
completion signal, the unsupported-cancellation condition appears only
as a log event, and the request still fails with
`RPCKilledException(SIGINT)`. -/
theorem C3_interrupt_not_cancelable (env : ExecEnv) (node : String)
    (hp : env.parse = .ok node) (hi : env.interrupt = .duringWait)
    (hc : env.cancelable = false) :
    (handle_request env).2 = .error (.killed SIGINT)
    ∧ Event.joinWorker ∉ (handle_request env).1
    ∧ Event.signalDone ∉ (handle_request env).1
    ∧ Event.logUnsupported ∈ (handle_request env).1 := by
  simp [handle_request, hp, hi, hc]

theorem C3_interrupt_not_cancelable_witness :
    (handle_request ⟨.ok "q1", .duringWait, false, .ok "r"⟩).2 = .error (.killed SIGINT)
    ∧ Event.joinWorker ∉ (handle_request ⟨.ok "q1", .duringWait, false, .ok "r"⟩).1
    ∧ Event.signalDone ∉ (handle_request ⟨.ok "q1", .duringWait, false, .ok "r"⟩).1
    ∧ Event.logUnsupported ∈ (handle_request ⟨.ok "q1", .duringWait, false, .ok "r"⟩).1 :=
  C3_interrupt_not_cancelable ⟨.ok "q1", .duringWait, false, .ok "r"⟩ "q1" rfl rfl rfl

/-- C4: when the worker's run raises, the exception is stored in the
pending slot before the completion signal fires, the completion signal
fires anyway, and on the non-interrupt path the stored exception is
re-raised on the coordinating thread so that no response envelope is
assembled. -/
theorem C4_worker_exception_reraised (env : ExecEnv) (node e : String)
    (hp : env.parse = .ok node) (hi : env.interrupt = .no)
    (hw : env.safe_run = .error e) :
    Event.storeExc e ∈ (handle_request env).1
    ∧ Event.signalDone ∈ (handle_request env).1
    ∧ occurs_before (Event.storeExc e) Event.signalDone (handle_request env).1 = true
    ∧ (handle_request env).2 = .error (.exec e)
    ∧ Event.returnResponse ∉ (handle_request env).1 := by
  simp [handle_request, hp, hi, hw, worker_events, runtime_cleanup, in_thread,
        raise_set_error, occurs_before, List.contains]

theorem C4_worker_exception_reraised_witness :
    Event.storeExc "boom" ∈ (handle_request ⟨.ok "q1", .no, true, .error "boom"⟩).1
    ∧ Event.signalDone ∈ (handle_request ⟨.ok "q1", .no, true, .error "boom"⟩).1
    ∧ occurs_before (Event.storeExc "boom") Event.signalDone
        (handle_request ⟨.ok "q1", .no, true, .error "boom"⟩).1 = true
    ∧ (handle_request ⟨.ok "q1", .no, true, .error "boom"⟩).2 = .error (.exec "boom")
    ∧ Event.returnResponse ∉ (handle_request ⟨.ok "q1", .no, true, .error "boom"⟩).1 :=
  C4_worker_exception_reraised ⟨.ok "q1", .no, true, .error "boom"⟩ "q1" "boom" rfl rfl rfl

/-- C7: when building the ephemeral context fails (parse or resolution
error raised by `_get_exec_node`), the error propagates out of
`handle_request` as a request failure and no worker thread is ever
spawned. -/
theorem C7_parse_failure_before_spawn (env : ExecEnv) (e : String)
    (hp : env.parse = .error e) (hi : env.interrupt ≠ .duringParse) :
    (handle_request env).2 = .error (.validation e)
    ∧ Event.spawnWorker ∉ (handle_request env).1 := by
  cases h : env.interrupt with
  | no => simp [handle_request, hp, h]
  | duringParse => exact absurd h hi
  | duringWait => simp [handle_request, hp, h]

theorem C7_parse_failure_before_spawn_witness :
    (handle_request ⟨.error "undefined ref", .no, true, .ok "r"⟩).2
        = .error (.validation "undefined ref")
    ∧ Event.spawnWorker ∉ (handle_request ⟨.error "undefined ref", .no, true, .ok "r"⟩).1 :=
  C7_parse_failure_before_spawn ⟨.error "undefined ref", .no, true, .ok "r"⟩
    "undefined ref" rfl (by decide)

/-- The environment of a successful request: parse succeeds, no
interrupt, the worker's run succeeds. -/
def env_success : ExecEnv := ⟨.ok "q1", .no, true, .ok "r"⟩

/-- C9 counterexample: on the success path a response is returned while
the worker thread was never joined (`thread.join()` occurs only in the
interrupt handler), so the claim that the coordinating thread never
returns a response while the worker is still unjoined is false as
stated. -/
theorem C9_counterexample :
    (handle_request env_success).2 = .ok ⟨["r"]⟩
    ∧ Event.spawnWorker ∈ (handle_request env_success).1
    ∧ Event.joinWorker ∉ (handle_request env_success).1 := by
  decide

/-- C9 (amended): for every request whose context build succeeds and
that is not interrupted during parsing, exactly one worker is spawned;
and on the success path the response is returned only after the worker's
completion signal has fired (the worker thread itself is never joined
there). -/
theorem C9_one_worker_signal_before_response (env : ExecEnv) (node : String)
    (hp : env.parse = .ok node) (hi : env.interrupt ≠ .duringParse) :
    (handle_request env).1.count Event.spawnWorker = 1
    ∧ (∀ r : Response, (handle_request env).2 = .ok r →
        occurs_before Event.signalDone Event.returnResponse (handle_request env).1 = true) := by
  cases h : env.interrupt with
  | duringParse => exact absurd h hi
  | duringWait =>
    cases hc : env.cancelable <;> cases hw : env.safe_run <;>
      simp [handle_request, hp, h, hc, hw, worker_events, occurs_before, List.contains]
  | no =>
    cases hw : env.safe_run <;>
      simp [handle_request, hp, h, hw, worker_events, runtime_cleanup, in_thread,
            raise_set_error, occurs_before, List.contains]

theorem C9_one_worker_signal_before_response_witness :
    (handle_request env_success).1.count Event.spawnWorker = 1
    ∧ occurs_before Event.signalDone Event.returnResponse (handle_request env_success).1 = true :=
  ⟨(C9_one_worker_signal_before_response env_success "q1" rfl (by decide)).1,
   (C9_one_worker_signal_before_response env_success "q1" rfl (by decide)).2 ⟨["r"]⟩ (by decide)⟩

/-! The method registry: `RemoteRPCParameters.get_rpc_task_cls` -/

/-- A handler (task) type: its class name and its declared
`METHOD_NAME` (`none` for abstract bases such as `_RPCExecTask`, whose
`METHOD_NAME` is unset). -/
structure TaskCls where
  name : String
  method_name : Option String
deriving DecidableEq, Repr

/-- `RPCTask.recursive_subclasses()`: the handler types defined in this
module, each with its `METHOD_NAME`. -/
def recursive_subclasses : List TaskCls :=
  [⟨"_RPCExecTask", none⟩,
   ⟨"RemoteCompileTask", some "compile_sql"⟩,
   ⟨"RemoteRunTask", some "run_sql"⟩,
   ⟨"RemoteCompileProjectTask", some "compile"⟩,
   ⟨"RemoteRunProjectTask", some "run"⟩,
   ⟨"RemoteSeedProjectTask", some "seed"⟩,
   ⟨"RemoteTestProjectTask", some "test"⟩,
   ⟨"RemoteDocsGenerateProjectTask", some "docs.generate"⟩,
   ⟨"RemoteRPCParameters", some "cli_args"⟩]

/-- `RemoteRPCParameters.get_rpc_task_cls`: walk the subclasses looking
for a matching `METHOD_NAME`; return the first match, otherwise raise
`InternalException`. -/
def get_rpc_task_cls (subclasses : List TaskCls) (rpc_method : String) : Except RPCErr TaskCls :=
  match subclasses.find? (fun c => c.method_name == some rpc_method) with
  | some c => .ok c
  | none => .error (.internal ("No matching handler found for rpc method " ++ rpc_method))

theorem find_matching_none (subclasses : List TaskCls) (m : String)
    (h : ∀ c ∈ subclasses, c.method_name ≠ some m) :
    subclasses.find? (fun c => c.method_name == some m) = none := by
  induction subclasses with
  | nil => rfl
  | cons c rest ih =>
    have hc : ¬ c.method_name = some m := h c (List.mem_cons_self c rest)
    simp only [List.find?]
    rw [show (c.method_name == some m) = false by simpa using hc]
    exact ih (fun x hx => h x (List.mem_cons_of_mem c hx))

theorem registry_resolves_member (m : String) (c : TaskCls)
    (hc : c ∈ recursive_subclasses) (hm : c.method_name = some m) :
    get_rpc_task_cls recursive_subclasses m = .ok c := by
  simp only [recursive_subclasses, List.mem_cons, List.mem_singleton,
             List.not_mem_nil, or_false] at hc
  rcases hc with rfl | rfl | rfl | rfl | rfl | rfl | rfl | rfl | rfl <;>
    first
    | exact Option.noConfusion hm
    | (injection hm with hm; subst hm; rfl)

/-- C6: resolving a method name matching no registered handler's
`METHOD_NAME` raises `InternalException` (never a user-facing
validation error), and resolving a name that some registered handler
declares returns that handler type. -/
theorem C6_registry_resolution (m : String) :
    ((∀ c ∈ recursive_subclasses, c.method_name ≠ some m) →
       get_rpc_task_cls recursive_subclasses m =
         .error (.internal ("No matching handler found for rpc method " ++ m)))
    ∧ (∀ c ∈ recursive_subclasses, c.method_name = some m →
         get_rpc_task_cls recursive_subclasses m = .ok c) := by
  constructor
  · intro h
    simp [get_rpc_task_cls, find_matching_none recursive_subclasses m h]
  · intro c hc hm
    exact registry_resolves_member m c hc hm

theorem C6_registry_resolution_witness :
    get_rpc_task_cls recursive_subclasses "nope" =
      .error (.internal ("No matching handler found for rpc method " ++ "nope"))
    ∧ get_rpc_task_cls recursive_subclasses "run" = .ok ⟨"RemoteRunProjectTask", some "run"⟩ :=
  ⟨(C6_registry_resolution "nope").1 (by decide),
   (C6_registry_resolution "run").2 ⟨"RemoteRunProjectTask", some "run"⟩ (by decide) rfl⟩

/-! The `cli_args` trampoline: `RemoteRPCParameters` -/

/-- Accumulate whitespace-separated tokens from a character stream;
`cur` holds the current token reversed. -/
def split_tokens : List Char → List Char → List String
  | [], cur => if cur.isEmpty then [] else [String.mk cur.reverse]
  | c :: rest, cur =>
    if c = ' ' then
      if cur.isEmpty then split_tokens rest []
      else String.mk cur.reverse :: split_tokens rest []
    else split_tokens rest (c :: cur)

/-- Modelled from the spec: `shlex.split` (Python stdlib shell lexing,
outside this module) — for command lines without quoting it splits on
whitespace and drops empty tokens. -/
def shlex_split (s : String) : List String :=
  split_tokens s.toList []

/-- Whether a token is an option flag (starts with two dashes). -/
def is_flag_token (t : String) : Bool :=
  match t.toList with
  | '-' :: '-' :: _ => true
  | _ => false

/-- The args object produced by parsing a CLI string: the target rpc
method named by the subcommand, and the `--models` selection if
given. -/
structure ParsedCliArgs where
  rpc_method : String
  models : Option (List String)
deriving DecidableEq, Repr

/-- Modelled from the spec: `dbt.main.parse_args` with
`RPCArgumentParser` (the process's own command-line grammar, outside
this module) — the first token names the target method, and a
`--models` flag collects the following non-flag tokens as model
selectors. -/
def parse_args : List String → Option ParsedCliArgs
  | [] => none
  | [cmd] => if is_flag_token cmd then none else some ⟨cmd, none⟩
  | cmd :: flag :: rest =>
    if is_flag_token cmd then none
    else if flag == "--models" && !rest.isEmpty && rest.all (fun t => ! is_flag_token t) then
      some ⟨cmd, some rest⟩
    else none

/-- `RemoteRPCParameters.set_args`: shell-lex the `cli` string and parse
it with the process's own argument grammar. -/
def rpc_cli_set_args (cli : String) : Option ParsedCliArgs :=
  parse_args (shlex_split cli)

/-- `RemoteRPCParameters.handle_request`: resolve the target method
through the registry, construct that handler type with the parsed args,
and delegate to its `handle_request` (the construction-plus-delegation
step is the external `delegate`). -/
def rpc_cli_handle_request (args : ParsedCliArgs)
    (delegate : TaskCls → ParsedCliArgs → Response) : Except RPCErr Response :=
  match get_rpc_task_cls recursive_subclasses args.rpc_method with
  | .ok cls => .ok (delegate cls args)
  | .error e => .error e

/-- C8: the `cli_args` handler shell-lexes and CLI-parses the request,
resolves the target method through the same registry, and returns the
delegated handler's result; `cli = "run --models my_model"` resolves to
the `run` handler type constructed with `models = ["my_model"]`. -/
theorem C8_cli_trampoline (delegate : TaskCls → ParsedCliArgs → Response) :
    rpc_cli_set_args "run --models my_model" = some ⟨"run", some ["my_model"]⟩
    ∧ rpc_cli_handle_request ⟨"run", some ["my_model"]⟩ delegate
        = .ok (delegate ⟨"RemoteRunProjectTask", some "run"⟩ ⟨"run", some ["my_model"]⟩)
    ∧ (∀ cli args, rpc_cli_set_args cli = some args →
        ∀ c ∈ recursive_subclasses, c.method_name = some args.rpc_method →
          rpc_cli_handle_request args delegate = .ok (delegate c args)) := by
  refine ⟨by decide, rfl, ?_⟩
  intro cli args _ c hc hm
  simp [rpc_cli_handle_request, registry_resolves_member args.rpc_method c hc hm]

theorem C8_cli_trampoline_witness :
    rpc_cli_set_args "run --models my_model" = some ⟨"run", some ["my_model"]⟩
    ∧ rpc_cli_handle_request ⟨"run", some ["my_model"]⟩ (fun c _ => ⟨[c.name]⟩)
        = .ok ⟨["RemoteRunProjectTask"]⟩ :=
  ⟨(C8_cli_trampoline (fun c _ => ⟨[c.name]⟩)).1,
   (C8_cli_trampoline (fun c _ => ⟨[c.name]⟩)).2.1⟩

end DbtRemote
